import Mathlib

/-!
Formal model of the Querova document question-answering system.

The repository has a React frontend (`frontend/src`), an API client
(`frontend/src/services/api.js`) and a FastAPI backend.  The backend core
(chunker, vector store, retriever under `backend/app/services`) is not part
of the sources available here; those components are modelled from the
specification and the models are marked `Modelled from the spec:` in their
doc comments.  Frontend behaviour (upload handling, question submission,
result rendering, API-client request construction) is embedded directly
from the JavaScript sources.
-/

namespace Querova

/-! ## Chunker (spec §4.1) -/

/-- A chunk draft: the text of the chunk, the character offset where it
starts, and the page containing that offset. -/
structure ChunkDraft where
  text : List Char
  startOffset : Nat
  page : Nat
deriving DecidableEq, Repr

/-- Page containing a character offset: the number of page-boundary offsets
that are ≤ the offset (`page_boundaries` is a sorted sequence of character
offsets where pages begin). -/
def pageOf (pb : List Nat) (off : Nat) : Nat :=
  (pb.filter (fun b => decide (b ≤ off))).length

/-- Modelled from the spec: the backend chunker
(`backend/app/services/document_processor.py`) is not among the available
sources.  Fixed-stride character chunking per §4.1 and the §8 end-to-end
scenario: each chunk takes `size` characters, the next chunk starts
`size - ov` characters later (so consecutive chunks overlap by exactly
`ov` characters), the last chunk may be shorter, and empty text yields
zero chunks.  `fuel` bounds the recursion; callers pass the text length,
which suffices whenever the stride is positive. -/
def chunksGo (pb : List Nat) (size stride : Nat) :
    Nat → Nat → List Char → List ChunkDraft
  | 0, _, _ => []
  | fuel + 1, start, t =>
    if t.isEmpty then []
    else if t.length ≤ size then [⟨t, start, pageOf pb start⟩]
    else ⟨t.take size, start, pageOf pb start⟩ ::
      chunksGo pb size stride fuel (start + stride) (t.drop stride)

/-- Modelled from the spec: `chunk(text, page_boundaries, chunk_size,
chunk_overlap)` splits the text into chunks of `size` characters with
consecutive chunks overlapping by exactly `ov` characters (§4.1, §8). -/
def chunk (text : List Char) (pb : List Nat) (size ov : Nat) : List ChunkDraft :=
  chunksGo pb size (size - ov) text.length 0 text

/-- Concatenate chunk texts in order while removing the declared `ov`
overlap characters shared between each consecutive pair: the first chunk
is kept whole, every later chunk contributes its text with the first `ov`
characters dropped. -/
def reassemble (ov : Nat) : List ChunkDraft → List Char
  | [] => []
  | c :: rest => c.text ++ (rest.map (fun d => d.text.drop ov)).flatten

lemma chunksGo_reassemble (pb : List Nat) (size ov : Nat) (h : ov < size) :
    ∀ (fuel start : Nat) (t : List Char), t.length ≤ fuel →
      reassemble ov (chunksGo pb size (size - ov) fuel start t) = t ∧
      (ov < t.length → ∃ c tl,
        chunksGo pb size (size - ov) fuel start t = c :: tl ∧
        ov ≤ c.text.length) := by
  intro fuel
  induction fuel with
  | zero =>
    intro start t ht
    have : t = [] := List.eq_nil_of_length_eq_zero (Nat.le_zero.mp ht)
    subst this
    simp [chunksGo, reassemble]
  | succ fuel ih =>
    intro start t ht
    by_cases hemp : t.isEmpty
    · have : t = [] := by
        cases t with
        | nil => rfl
        | cons a l => simp [List.isEmpty] at hemp
      subst this
      simp [chunksGo, reassemble]
    · have hne : t ≠ [] := by
        intro hcontr; subst hcontr; simp [List.isEmpty] at hemp
      by_cases hshort : t.length ≤ size
      · constructor
        · simp [chunksGo, hemp, hshort, reassemble]
        · intro hov
          refine ⟨⟨t, start, pageOf pb start⟩, [], ?_, ?_⟩
          · simp [chunksGo, hemp, hshort]
          · exact Nat.le_of_lt hov
      · -- long case: t.length > size
        have hlong : size < t.length := Nat.lt_of_not_le hshort
        have hstride : 1 ≤ size - ov := by omega
        have ht' : (t.drop (size - ov)).length ≤ fuel := by
          have : t.length - (size - ov) ≤ fuel := by
            omega
          simpa [List.length_drop] using this
        have ht'len : ov < (t.drop (size - ov)).length := by
          have hovsize : ov ≤ size := Nat.le_of_lt h
          have : size - ov + ov = size := Nat.sub_add_cancel hovsize
          simp only [List.length_drop]
          omega
        obtain ⟨ihre, ihhd⟩ := ih (start + (size - ov)) (t.drop (size - ov)) ht'
        obtain ⟨c, tl, hrest, hclen⟩ := ihhd ht'len
        have hunfold : chunksGo pb size (size - ov) (fuel + 1) start t =
            ⟨t.take size, start, pageOf pb start⟩ ::
              chunksGo pb size (size - ov) fuel (start + (size - ov)) (t.drop (size - ov)) := by
          simp [chunksGo, hemp, hshort]
        constructor
        · rw [hunfold, hrest]
          rw [hrest] at ihre
          -- ihre : reassemble ov (c :: tl) = t.drop (size - ov)
          simp only [reassemble, List.map_cons, List.flatten_cons] at ihre ⊢
          -- goal: t.take size ++ (c.text.drop ov ++ join (map _ tl)) = t
          have hsum : size - ov + ov = size := Nat.sub_add_cancel (Nat.le_of_lt h)
          have hdrop : (t.drop (size - ov)).drop ov = t.drop size := by
            rw [List.drop_drop, hsum]
          have key : c.text.drop ov ++ (tl.map (fun d => d.text.drop ov)).flatten
              = t.drop size := by
            have := congrArg (List.drop ov) ihre
            rw [List.drop_append_of_le_length hclen] at this
            rw [this, hdrop]
          rw [key, List.take_append_drop]
        · intro _
          refine ⟨⟨t.take size, start, pageOf pb start⟩, _, hunfold, ?_⟩
          simp only [List.length_take]
          omega

/-- C1: for every input text and valid configuration
(`chunk_overlap < chunk_size`), concatenating in order the texts of the
chunks produced by `chunk`, removing the declared `chunk_overlap`
characters shared between each consecutive pair, reproduces the original
text exactly. -/
theorem chunk_reassemble_roundtrip (text : List Char) (pb : List Nat)
    (size ov : Nat) (h : ov < size) :
    reassemble ov (chunk text pb size ov) = text :=
  (chunksGo_reassemble pb size ov h text.length 0 text (Nat.le_refl _)).1

/-- Witness for C1 at a concrete input: text of 8 characters, chunk size 3,
overlap 1. -/
theorem chunk_reassemble_roundtrip_witness :
    (1 < 3) ∧
    reassemble 1 (chunk ['a','b','c','d','e','f','g','h'] [0, 4] 3 1)
      = ['a','b','c','d','e','f','g','h'] :=
  ⟨by decide, chunk_reassemble_roundtrip ['a','b','c','d','e','f','g','h'] [0, 4] 3 1 (by decide)⟩

/-! ## Embedding Index (spec §4.2) -/

/-- An entry stored in the embedding index: chunk id, owning document id
(part of the metadata), and the stored embedding vector. -/
structure IndexEntry where
  chunk_id : String
  document_id : String
  embedding : List ℚ
deriving DecidableEq, Repr

/-- Modelled from the spec: the vector-store adapter
(`backend/app/services/vector_store.py`) is not among the available
sources.  `upsert(chunk_id, embedding, metadata)` stores an entry under the
chunk id, replacing any existing entry with that id; otherwise the entry is
appended (insertion order is kept for stable tie-breaking). -/
def upsert (s : List IndexEntry) (e : IndexEntry) : List IndexEntry :=
  if s.any (fun x => x.chunk_id == e.chunk_id) then
    s.map (fun x => if x.chunk_id == e.chunk_id then e else x)
  else s ++ [e]

/-- Modelled from the spec: `delete(document_id)` removes all chunks for a
document. -/
def deleteDoc (s : List IndexEntry) (d : String) : List IndexEntry :=
  s.filter (fun e => e.document_id != d)

/-- Modelled from the spec: `query(embedding, k, filter?)` restricts the
search to the filtered document ids when a filter is given, ranks the
candidates by similarity score descending (stable merge sort preserves
insertion order on ties), and returns the top `k` as `(chunk_id, score)`
pairs.  The similarity function is a parameter: the spec fixes it to
cosine similarity computed by the external vector store, and every theorem
below holds for an arbitrary score function. -/
def query (score : List ℚ → List ℚ → ℚ) (s : List IndexEntry)
    (emb : List ℚ) (k : Nat) (filt : Option (List String)) :
    List (String × ℚ) :=
  let cands := s.filter (fun e =>
    match filt with
    | none => true
    | some ds => ds.contains e.document_id)
  let ranked := cands.mergeSort
    (fun a b => decide (score emb b.embedding ≤ score emb a.embedding))
  (ranked.take k).map (fun e => (e.chunk_id, score emb e.embedding))

lemma mem_query (score : List ℚ → List ℚ → ℚ) (s : List IndexEntry)
    (emb : List ℚ) (k : Nat) (filt : Option (List String))
    (p : String × ℚ) (hp : p ∈ query score s emb k filt) :
    ∃ e ∈ s, e.chunk_id = p.1 := by
  simp only [query, List.mem_map] at hp
  obtain ⟨e, he, hpe⟩ := hp
  have h1 : e ∈ (s.filter fun e =>
      match filt with
      | none => true
      | some ds => ds.contains e.document_id).mergeSort
        (fun a b => decide (score emb b.embedding ≤ score emb a.embedding)) :=
    List.mem_of_mem_take he
  rw [List.mem_mergeSort] at h1
  exact ⟨e, List.mem_of_mem_filter h1, by rw [← hpe]⟩

lemma deleteDoc_upsert_no_chunk (s : List IndexEntry) (C : IndexEntry) :
    ∀ e ∈ deleteDoc (upsert s C) C.document_id, e.chunk_id ≠ C.chunk_id := by
  intro e he
  simp only [deleteDoc, List.mem_filter, bne_iff_ne, ne_eq, decide_not,
    Bool.not_eq_true', decide_eq_false_iff_not] at he
  obtain ⟨hmem, hdoc⟩ := he
  simp only [upsert] at hmem
  by_cases hany : s.any (fun x => x.chunk_id == C.chunk_id)
  · rw [if_pos hany] at hmem
    rw [List.mem_map] at hmem
    obtain ⟨x, _, hx⟩ := hmem
    by_cases hxc : x.chunk_id == C.chunk_id
    · rw [if_pos hxc] at hx
      subst hx
      exact absurd rfl hdoc
    · rw [if_neg hxc] at hx
      subst hx
      simpa using hxc
  · rw [if_neg hany] at hmem
    rcases List.mem_append.mp hmem with hs | hC
    · rw [List.any_eq_true] at hany
      push_neg at hany
      have := hany e hs
      simpa using this
    · have : e = C := by simpa using hC
      subst this
      exact absurd rfl hdoc

/-- C2: after `upsert` of a chunk C owned by document D, `delete(D)` leaves
an index state in which no `query` — for any query embedding, any `k`, any
document filter and any scoring function — ever returns C. -/
theorem query_after_delete_never_returns_chunk
    (score : List ℚ → List ℚ → ℚ) (s : List IndexEntry) (C : IndexEntry)
    (emb : List ℚ) (k : Nat) (filt : Option (List String)) :
    C.chunk_id ∉
      (query score (deleteDoc (upsert s C) C.document_id) emb k filt).map
        Prod.fst := by
  intro hmem
  rw [List.mem_map] at hmem
  obtain ⟨p, hp, hid⟩ := hmem
  obtain ⟨e, he, hec⟩ :=
    mem_query score (deleteDoc (upsert s C) C.document_id) emb k filt p hp
  exact deleteDoc_upsert_no_chunk s C e he (hec.trans hid)

/-! ## Retriever (spec §4.3) -/

/-- Modelled from the spec: the retriever (`backend/app/services`) is not
among the available sources.  `retrieve` embeds the question text once
(`embedQ`), queries the index with `top_k`, and discards entries whose
score is below `min_relevance_score`; when nothing clears the threshold
the result is the empty list, not an error. -/
def retrieve (score : List ℚ → List ℚ → ℚ) (s : List IndexEntry)
    (embedQ : String → List ℚ) (question : String) (top_k : Nat)
    (minScore : ℚ) (docIds : Option (List String)) : List (String × ℚ) :=
  (query score s (embedQ question) top_k docIds).filter
    (fun p => decide (minScore ≤ p.2))

/-- C3: `retrieve` returns at most `top_k` items, every returned item has
score ≥ `min_relevance_score`, and when no candidate clears the threshold
it returns the empty sequence (being a total function into lists, it never
raises). -/
theorem retrieve_topk_and_threshold (score : List ℚ → List ℚ → ℚ)
    (s : List IndexEntry) (embedQ : String → List ℚ) (question : String)
    (top_k : Nat) (minScore : ℚ) (docIds : Option (List String)) :
    (retrieve score s embedQ question top_k minScore docIds).length ≤ top_k ∧
    (∀ p ∈ retrieve score s embedQ question top_k minScore docIds,
      minScore ≤ p.2) ∧
    ((∀ p ∈ query score s (embedQ question) top_k docIds, p.2 < minScore) →
      retrieve score s embedQ question top_k minScore docIds = []) := by
  refine ⟨?_, ?_, ?_⟩
  · calc (retrieve score s embedQ question top_k minScore docIds).length
        ≤ (query score s (embedQ question) top_k docIds).length :=
          List.length_filter_le _ _
      _ ≤ top_k := by
          simp only [query, List.length_map]
          exact List.length_take_le _ _
  · intro p hp
    rw [retrieve, List.mem_filter] at hp
    exact of_decide_eq_true hp.2
  · intro hall
    rw [retrieve, List.filter_eq_nil_iff]
    intro p hp
    simp only [decide_eq_true_eq]
    exact not_le_of_lt (hall p hp)

/-- Witness for C3's threshold implication at a concrete state: one stored
entry whose score under the constant-zero scorer is below the threshold 1,
so `retrieve` returns `[]`. -/
theorem retrieve_topk_and_threshold_witness :
    retrieve (fun _ _ => 0) [⟨"c1", "d1", [1]⟩] (fun _ => [1]) "q" 5 1 none
      = [] := by
  refine (retrieve_topk_and_threshold (fun _ _ => 0) [⟨"c1", "d1", [1]⟩]
    (fun _ => [1]) "q" 5 1 none).2.2 ?_
  intro p hp
  have : p ∈ [(("c1" : String), (0 : ℚ))] := by
    simpa [query, List.mergeSort] using hp
  rw [List.mem_singleton] at this
  subst this
  norm_num

/-! ## Frontend data model (spec §3, `ResultsView.jsx` field accesses) -/

/-- A source attached to an answer (`Source` in spec §3). -/
structure Source where
  chunk_id : String
  exact_quote : String
  context : String
  page_number : Option Nat
  match_type : String
  confidence_score : ℚ
deriving DecidableEq, Repr

/-- An answer result (`AnswerResult` in spec §3). -/
structure AnswerResult where
  question_id : String
  question_text : String
  question_type : String
  answer : String
  selected_option_id : Option String
  reasoning_steps : List String
  sources : List Source
  confidence_score : ℚ
  verification_status : String
  processing_time : ℚ
  model_used : String
deriving DecidableEq, Repr

/-- A question batch (`QuestionBatch` in spec §3). -/
structure QuestionBatch where
  batch_id : String
  total_questions : Nat
  completed : Nat
  failed : Nat
  results : List AnswerResult
  total_processing_time : ℚ
  timestamp : String
deriving DecidableEq, Repr

/-! ## Single-question submit handler
(`frontend/src/components/QuestionUpload.jsx`, `handleSubmit`) -/

/-- JavaScript `String.prototype.trim()`: remove whitespace from both ends
of the string. -/
def jsTrim (s : String) : String :=
  ⟨((s.data.dropWhile Char.isWhitespace).reverse.dropWhile
      Char.isWhitespace).reverse⟩

/-- Observable outcome of one run of `handleSubmit`: whether an error toast
was shown, whether the API was called, the component state (`question`,
`loading`) after the handler finishes, and the batch object passed to
`onQuestionsProcessed` (if any). -/
structure SubmitOutcome where
  errorToast : Bool
  apiCalled : Bool
  questionAfter : String
  loadingAfter : Bool
  processed : Option QuestionBatch
deriving DecidableEq, Repr

/-- `handleSubmit` from `QuestionUpload.jsx`: if the trimmed question is
empty, toast an error and return without calling the API; otherwise call
`questionsAPI.askSingle(question)` and, on success, hand
`onQuestionsProcessed` a batch of size 1 built from the single result,
then clear the question; `setLoading(false)` runs in the `finally` block.
`now` models `Date.now().toString()` and `ts` models
`new Date().toISOString()`. -/
def handleSubmit (question : String) (loading : Bool)
    (api : String → Except String AnswerResult) (now ts : String) :
    SubmitOutcome :=
  if jsTrim question = "" then
    { errorToast := true, apiCalled := false, questionAfter := question,
      loadingAfter := loading, processed := none }
  else
    match api question with
    | .ok r =>
      { errorToast := false, apiCalled := true, questionAfter := "",
        loadingAfter := false,
        processed := some
          { batch_id := now, total_questions := 1, completed := 1,
            failed := 0, results := [r],
            total_processing_time := r.processing_time, timestamp := ts } }
    | .error _ =>
      { errorToast := true, apiCalled := true, questionAfter := question,
        loadingAfter := false, processed := none }

/-- C4: every successful single-question submission hands the caller a
QuestionBatch-shaped object with `total_questions = 1`, `completed = 1`,
`failed = 0`, `results = [r]` and `total_processing_time =
r.processing_time` — a batch of size 1. -/
theorem handleSubmit_batch_of_one (question : String) (loading : Bool)
    (api : String → Except String AnswerResult) (now ts : String)
    (r : AnswerResult) (hq : jsTrim question ≠ "")
    (hr : api question = .ok r) :
    (handleSubmit question loading api now ts).processed = some
      { batch_id := now, total_questions := 1, completed := 1, failed := 0,
        results := [r], total_processing_time := r.processing_time,
        timestamp := ts } := by
  simp [handleSubmit, hq, hr]

/-- A concrete answer result used by witnesses. -/
def sampleResult : AnswerResult :=
  { question_id := "q-1", question_text := "what?",
    question_type := "open_ended", answer := "an answer",
    selected_option_id := none, reasoning_steps := [],
    sources := [], confidence_score := 1/2,
    verification_status := "partial", processing_time := 3/2,
    model_used := "gemini-2.0-flash-exp" }

/-- Witness for C4 at a concrete input. -/
theorem handleSubmit_batch_of_one_witness :
    (handleSubmit "what?" false (fun _ => .ok sampleResult) "17" "t0").processed
      = some
        { batch_id := "17", total_questions := 1, completed := 1,
          failed := 0, results := [sampleResult],
          total_processing_time := sampleResult.processing_time,
          timestamp := "t0" } :=
  handleSubmit_batch_of_one "what?" false (fun _ => .ok sampleResult)
    "17" "t0" sampleResult (by decide) rfl

/-- C9: when the trimmed question is empty, `handleSubmit` shows an error
toast and returns without any API call, leaving the stored question text
and the loading state unchanged, and nothing is handed to
`onQuestionsProcessed`. -/
theorem handleSubmit_empty_question (question : String) (loading : Bool)
    (api : String → Except String AnswerResult) (now ts : String)
    (hq : jsTrim question = "") :
    handleSubmit question loading api now ts =
      { errorToast := true, apiCalled := false, questionAfter := question,
        loadingAfter := loading, processed := none } := by
  simp [handleSubmit, hq]

/-- Witness for C9 at a concrete whitespace-only question. -/
theorem handleSubmit_empty_question_witness :
    handleSubmit "   " true (fun _ => .ok sampleResult) "17" "t0" =
      { errorToast := true, apiCalled := false, questionAfter := "   ",
        loadingAfter := true, processed := none } :=
  handleSubmit_empty_question "   " true (fun _ => .ok sampleResult)
    "17" "t0" (by decide)

/-! ## Document upload dropzone
(`frontend/src/components/DocumentUpload.jsx`, `useDropzone` / `onDrop`) -/

/-- A file dropped onto the upload zone: its name, its size in bytes, and
whether its MIME type/extension matches the dropzone's `accept` map
(pdf / docx / txt). -/
structure DropFile where
  name : String
  size : Nat
  typeAccepted : Bool
deriving DecidableEq, Repr

/-- `maxSize: 10 * 1024 * 1024` from the `useDropzone` configuration. -/
def maxFileSize : Nat := 10 * 1024 * 1024

/-- Rejection codes produced by react-dropzone and matched in `onDrop`. -/
inductive RejectCode where
  | fileTooLarge
  | fileInvalidType
deriving DecidableEq, Repr

/-- react-dropzone's validation of one file against the `accept` map and
`maxSize` (external library, modelled from its documented behaviour): the
error list carries the accept error first, then the size error. -/
def dropErrors (f : DropFile) : List RejectCode :=
  (if f.typeAccepted then [] else [.fileInvalidType]) ++
  (if maxFileSize < f.size then [.fileTooLarge] else [])

/-- A file is accepted exactly when it passes both checks. -/
def isAccepted (f : DropFile) : Bool :=
  f.typeAccepted && decide (f.size ≤ maxFileSize)

/-- Observable outcome of `onDrop`: which files were toasted as too large,
which as unsupported format, and which were sent to the upload endpoint. -/
structure DropOutcome where
  tooLargeToasts : List DropFile
  invalidTypeToasts : List DropFile
  uploaded : List DropFile
deriving DecidableEq, Repr

/-- `onDrop` from `DocumentUpload.jsx`: for each rejected file it reads
`file.errors[0]` and toasts `file-too-large` or `file-invalid-type`
accordingly; only the accepted files are uploaded via
`documentAPI.upload`. -/
def onDrop (files : List DropFile) : DropOutcome :=
  let rejected := files.filter (fun f => !(isAccepted f))
  { tooLargeToasts := rejected.filter
      (fun f => decide ((dropErrors f).head? = some .fileTooLarge))
    invalidTypeToasts := rejected.filter
      (fun f => decide ((dropErrors f).head? = some .fileInvalidType))
    uploaded := files.filter isAccepted }

/-- C5 counterexample: a dropped file that is both oversized and of an
unsupported type (`errors[0]` is `file-invalid-type`) is reported with the
"unsupported format" toast, not the "file too large" toast, although its
size exceeds the 10 MiB maximum. -/
theorem oversized_invalid_type_not_toasted_too_large :
    maxFileSize < (10485761 : Nat) ∧
    (⟨"big.exe", 10485761, false⟩ : DropFile) ∉
      (onDrop [⟨"big.exe", 10485761, false⟩]).tooLargeToasts ∧
    (⟨"big.exe", 10485761, false⟩ : DropFile) ∈
      (onDrop [⟨"big.exe", 10485761, false⟩]).invalidTypeToasts := by
  refine ⟨by decide, ?_, ?_⟩ <;> decide

/-- C5 (amended): every dropped file whose size exceeds the configured
10 MiB maximum is never sent to the upload endpoint (so no document is
created for it), and it is reported to the user with the 'file too large'
error when its type is otherwise accepted, and with the 'unsupported
format' error when its type is not accepted. -/
theorem oversized_file_never_uploaded (files : List DropFile) (f : DropFile)
    (hf : f ∈ files) (hs : maxFileSize < f.size) :
    f ∉ (onDrop files).uploaded ∧
    (f.typeAccepted = true → f ∈ (onDrop files).tooLargeToasts) ∧
    (f.typeAccepted = false → f ∈ (onDrop files).invalidTypeToasts) := by
  have hnotacc : isAccepted f = false := by
    simp [isAccepted]
    intro _
    omega
  refine ⟨?_, ?_, ?_⟩
  · intro hmem
    rw [onDrop] at hmem
    simp only [List.mem_filter] at hmem
    rw [hnotacc] at hmem
    exact Bool.false_ne_true hmem.2
  · intro hta
    rw [onDrop]
    simp only [List.mem_filter]
    refine ⟨⟨hf, by rw [hnotacc]; rfl⟩, ?_⟩
    simp [dropErrors, hta, hs]
  · intro hta
    rw [onDrop]
    simp only [List.mem_filter]
    refine ⟨⟨hf, by rw [hnotacc]; rfl⟩, ?_⟩
    simp [dropErrors, hta]

/-- Witness for the amended C5 at a concrete oversized pdf-typed file. -/
theorem oversized_file_never_uploaded_witness :
    (⟨"big.pdf", 10485761, true⟩ : DropFile) ∉
      (onDrop [⟨"ok.txt", 3, true⟩, ⟨"big.pdf", 10485761, true⟩]).uploaded ∧
    (⟨"big.pdf", 10485761, true⟩ : DropFile) ∈
      (onDrop [⟨"ok.txt", 3, true⟩, ⟨"big.pdf", 10485761, true⟩]).tooLargeToasts := by
  have h := oversized_file_never_uploaded
    [⟨"ok.txt", 3, true⟩, ⟨"big.pdf", 10485761, true⟩]
    ⟨"big.pdf", 10485761, true⟩ (by decide) (by decide)
  exact ⟨h.1, h.2.1 rfl⟩

/-! ## Uploaded-documents list deletion
(`frontend/src/components/DocumentUpload.jsx`, `handleDelete`) -/

/-- An entry of the `uploadedFiles` list: error entries carry no
`document_id` (undefined in JavaScript, `none` here). -/
structure UploadedFile where
  document_id : Option String
  name : String
  status : String
  chunk_count : Option Nat
  error : Option String
deriving DecidableEq, Repr

/-- The state update `handleDelete` applies after a successful
`documentAPI.delete(documentId)`:
`prev.filter(f => f.document_id !== documentId)`. -/
def handleDeleteSuccess (files : List UploadedFile) (documentId : String) :
    List UploadedFile :=
  files.filter (fun f => f.document_id != some documentId)

/-- C6: a successful delete of document `d` removes exactly the entries
whose `document_id` equals `d`: no remaining entry references `d`, every
entry not referencing `d` is kept, and the remaining list is a
subsequence of the original (entries unchanged, relative order
preserved). -/
theorem handleDelete_removes_exactly (files : List UploadedFile)
    (d : String) :
    (∀ f ∈ handleDeleteSuccess files d, f.document_id ≠ some d) ∧
    (∀ f ∈ files, f.document_id ≠ some d →
      f ∈ handleDeleteSuccess files d) ∧
    (handleDeleteSuccess files d).Sublist files := by
  refine ⟨?_, ?_, ?_⟩
  · intro f hf
    rw [handleDeleteSuccess, List.mem_filter] at hf
    simpa using hf.2
  · intro f hf hne
    rw [handleDeleteSuccess, List.mem_filter]
    exact ⟨hf, by simpa using hne⟩
  · exact List.filter_sublist _

/-- Witness for C6 at a concrete three-entry list. -/
theorem handleDelete_removes_exactly_witness :
    (∀ f ∈ handleDeleteSuccess
        [⟨some "d1", "a.pdf", "success", some 3, none⟩,
         ⟨some "d2", "b.pdf", "success", some 5, none⟩,
         ⟨none, "c.pdf", "error", none, some "Yukleme hatasi"⟩] "d1",
      f.document_id ≠ some "d1") ∧
    (⟨some "d2", "b.pdf", "success", some 5, none⟩ : UploadedFile) ∈
      handleDeleteSuccess
        [⟨some "d1", "a.pdf", "success", some 3, none⟩,
         ⟨some "d2", "b.pdf", "success", some 5, none⟩,
         ⟨none, "c.pdf", "error", none, some "Yukleme hatasi"⟩] "d1" := by
  have h := handleDelete_removes_exactly
    [⟨some "d1", "a.pdf", "success", some 3, none⟩,
     ⟨some "d2", "b.pdf", "success", some 5, none⟩,
     ⟨none, "c.pdf", "error", none, some "Yukleme hatasi"⟩] "d1"
  exact ⟨h.1, h.2.1 ⟨some "d2", "b.pdf", "success", some 5, none⟩
    (by decide) (by decide)⟩

/-! ## API client (`frontend/src/services/api.js`, `questionsAPI`) -/

/-- Options object of `questionsAPI.askSingle(question, options)`.  A JS
`undefined` field is `none`; a present numeric field is `some`. -/
structure AskOptions where
  top_k : Option Nat
  document_ids : Option (List String)
deriving DecidableEq, Repr

/-- Options object of `questionsAPI.uploadJSON(file, options)`. -/
structure UploadJSONOptions where
  top_k : Option Nat
  min_relevance_score : Option ℚ
deriving DecidableEq, Repr

/-- An HTTP request issued by the axios client: method, path, the query
parameters in order (a `URLSearchParams` is an ordered multimap), and the
multipart file payload when present. -/
structure Request where
  method : String
  path : String
  params : List (String × String)
  file : Option String
deriving DecidableEq, Repr

/-- Query parameters built by `askSingle`:
`new URLSearchParams({ question })`, then
`if (options.top_k) params.append('top_k', options.top_k)` (JS truthiness:
an absent or zero `top_k` appends nothing), then
`options.document_ids.forEach(id => params.append('document_ids', id))`
when `document_ids` is present. -/
def askSingleParams (question : String) (opts : AskOptions) :
    List (String × String) :=
  [("question", question)] ++
  (match opts.top_k with
   | some n => if n ≠ 0 then [("top_k", toString n)] else []
   | none => []) ++
  (match opts.document_ids with
   | some ids => ids.map (fun id => ("document_ids", id))
   | none => [])

/-- The single request issued by `askSingle`:
`api.post(`/questions/single?${params.toString()}`)`. -/
def askSingleRequest (question : String) (opts : AskOptions) : Request :=
  { method := "POST", path := "/questions/single",
    params := askSingleParams question opts, file := none }

/-- `askSingle` returns `response.data` of the one POST it issues; `post`
models the axios transport. -/
def askSingle (post : Request → AnswerResult) (question : String)
    (opts : AskOptions) : AnswerResult :=
  post (askSingleRequest question opts)

/-- Query parameters built by `uploadJSON`: `top_k` and
`min_relevance_score` are appended only when truthy (absent or zero
values append nothing). -/
def uploadJSONParams (opts : UploadJSONOptions) : List (String × String) :=
  (match opts.top_k with
   | some n => if n ≠ 0 then [("top_k", toString n)] else []
   | none => []) ++
  (match opts.min_relevance_score with
   | some q => if q ≠ 0 then [("min_relevance_score", toString q)] else []
   | none => [])

/-- The single request issued by `uploadJSON`:
`api.post(`/questions/upload-json?${params.toString()}`, formData)`. -/
def uploadJSONRequest (file : String) (opts : UploadJSONOptions) : Request :=
  { method := "POST", path := "/questions/upload-json",
    params := uploadJSONParams opts, file := some file }

/-- C7 counterexample: with `options.top_k` provided but equal to `0`, the
query string of `askSingle`'s request carries no `top_k` parameter at all
— it is identical to the request built with no `top_k` option. -/
theorem askSingle_topk_zero_counterexample :
    askSingleParams "q" { top_k := some 0, document_ids := none } =
      [("question", "q")] ∧
    askSingleRequest "q" { top_k := some 0, document_ids := none } =
      askSingleRequest "q" { top_k := none, document_ids := none } := by
  constructor <;> rfl

/-- C7 (amended): `askSingle` issues exactly one POST to
`/questions/single`; its query string carries the question text first as
the `question` parameter, carries `top_k` when `options.top_k` is provided
and nonzero (a zero `top_k` is falsy in JavaScript and is omitted, cf.
C8), and carries one `document_ids` parameter per element of
`options.document_ids` in order; the response body is returned
unchanged. -/
theorem askSingle_request_shape (post : Request → AnswerResult)
    (question : String) (opts : AskOptions) :
    (askSingleRequest question opts).method = "POST" ∧
    (askSingleRequest question opts).path = "/questions/single" ∧
    (askSingleRequest question opts).params.head? =
      some ("question", question) ∧
    (∀ n, opts.top_k = some n → n ≠ 0 →
      ("top_k", toString n) ∈ (askSingleRequest question opts).params) ∧
    ((askSingleRequest question opts).params.filter
        (fun p => p.1 == "document_ids")).map Prod.snd =
      opts.document_ids.getD [] ∧
    askSingle post question opts = post (askSingleRequest question opts) := by
  refine ⟨rfl, rfl, ?_, ?_, ?_, rfl⟩
  · cases opts.top_k <;> cases opts.document_ids <;> rfl
  · intro n hn hnz
    simp only [askSingleRequest, askSingleParams, hn, if_pos hnz,
      List.mem_append]
    left; right
    exact List.mem_singleton.mpr rfl
  · obtain ⟨tk, dids⟩ := opts
    simp only [askSingleRequest, askSingleParams, List.filter_append]
    have h1 : List.filter (fun p => p.1 == "document_ids")
        [(("question" : String), question)] = [] := by rfl
    have h2 : List.filter (fun p => p.1 == "document_ids")
        (match tk with
         | some n => if n ≠ 0 then [(("top_k" : String), toString n)] else []
         | none => []) = [] := by
      cases tk with
      | none => rfl
      | some n => cases n with
        | zero => rfl
        | succ m => rfl
    rw [h1, h2]
    simp only [List.nil_append]
    cases dids with
    | none => rfl
    | some ids =>
      simp only [Option.getD_some]
      induction ids with
      | nil => rfl
      | cons i rest ihr =>
        simp only [List.map_cons, List.filter_cons]
        norm_num
        exact ihr

/-- Witness for the amended C7 at concrete options. -/
theorem askSingle_request_shape_witness :
    ("top_k", "5") ∈
      (askSingleRequest "why?"
        { top_k := some 5, document_ids := some ["d1", "d2"] }).params ∧
    ((askSingleRequest "why?"
        { top_k := some 5, document_ids := some ["d1", "d2"] }).params.filter
        (fun p => p.1 == "document_ids")).map Prod.snd = ["d1", "d2"] := by
  have h := askSingle_request_shape (fun _ => sampleResult) "why?"
    { top_k := some 5, document_ids := some ["d1", "d2"] }
  exact ⟨h.2.2.2.1 5 rfl (by decide), h.2.2.2.2.1⟩

/-- C8: a zero (falsy) `top_k` or `min_relevance_score` makes `askSingle`
and `uploadJSON` build a request identical to one where that option was
absent, so a caller can never explicitly request a zero value at the
API-client interface. -/
theorem falsy_options_omitted (question file : String)
    (dids : Option (List String)) (tk : Option Nat) (mrs : Option ℚ) :
    askSingleRequest question { top_k := some 0, document_ids := dids } =
      askSingleRequest question { top_k := none, document_ids := dids } ∧
    uploadJSONRequest file { top_k := some 0, min_relevance_score := mrs } =
      uploadJSONRequest file { top_k := none, min_relevance_score := mrs } ∧
    uploadJSONRequest file { top_k := tk, min_relevance_score := some 0 } =
      uploadJSONRequest file { top_k := tk, min_relevance_score := none } := by
  refine ⟨rfl, ?_, ?_⟩
  · simp [uploadJSONRequest, uploadJSONParams]
  · simp [uploadJSONRequest, uploadJSONParams]

/-! ## Result-view badge renderers
(`frontend/src/components/ResultsView.jsx`) -/

/-- The presentation data of a verification badge. -/
structure VerificationBadgeView where
  icon : String
  text : String
  bgColor : String
  textColor : String
  borderColor : String
deriving DecidableEq, Repr

/-- Result of a JavaScript property access `obj[key]` on an object
literal: an own key yields its config object, a key inherited from
`Object.prototype` (the literal's prototype) yields the inherited member
— a truthy function, or `Object.prototype` itself for `__proto__` — and
any other key yields `undefined`. -/
inductive JsLookup (α : Type) where
  | config (c : α)
  | inherited (name : String)
  | undefinedValue
deriving DecidableEq, Repr

/-- JavaScript truthiness of a property-access result: objects and
functions are truthy, `undefined` is falsy. -/
def JsLookup.truthy {α : Type} : JsLookup α → Bool
  | .undefinedValue => false
  | _ => true

/-- The property names every plain object literal inherits from
`Object.prototype`, each bound to a truthy value. -/
def objectPrototypeKeys : List String :=
  ["constructor", "hasOwnProperty", "isPrototypeOf", "propertyIsEnumerable",
   "toLocaleString", "toString", "valueOf", "__proto__",
   "__defineGetter__", "__defineSetter__", "__lookupGetter__",
   "__lookupSetter__"]

/-- The `unverified` member of `VerificationBadge`'s `configs` literal. -/
def unverifiedView : VerificationBadgeView :=
  ⟨"ShieldQuestion", "Doğrulanmamış", "bg-slate-100", "text-slate-700",
    "border-slate-300"⟩

/-- The property access `configs[status]` of `VerificationBadge`: the
three own keys of the `configs` literal, then the keys inherited from
`Object.prototype`, else `undefined`. -/
def verificationConfigs (status : String) : JsLookup VerificationBadgeView :=
  if status = "verified" then
    .config ⟨"ShieldCheck", "Doğrulanmış", "bg-green-100", "text-green-700",
      "border-green-300"⟩
  else if status = "partial" then
    .config ⟨"ShieldAlert", "Kısmen Doğrulanmış", "bg-amber-100",
      "text-amber-700", "border-amber-300"⟩
  else if status = "unverified" then .config unverifiedView
  else if status ∈ objectPrototypeKeys then .inherited status
  else .undefinedValue

/-- `VerificationBadge`: `const config = configs[status] ||
configs.unverified; const Icon = config.icon; … <Icon …/>`.  When the
lookup is falsy (`undefined`) the fallback fires and the badge renders;
when it yields an inherited `Object.prototype` member the fallback does
not fire, `config.icon` is `undefined`, and React throws on the
`undefined` element type — modelled as `none`. -/
def verificationBadge (status : String) : Option VerificationBadgeView :=
  match verificationConfigs status with
  | .config c => some c
  | .inherited _ => none
  | .undefinedValue => some unverifiedView

/-- The presentation data of a match-type badge. -/
structure MatchTypeBadgeView where
  text : String
  bgColor : String
  textColor : String
deriving DecidableEq, Repr

/-- The `inference` member of `MatchTypeBadge`'s `configs` literal. -/
def inferenceView : MatchTypeBadgeView :=
  ⟨"Çıkarım", "bg-purple-100", "text-purple-700"⟩

/-- The property access `configs[matchType]` of `MatchTypeBadge`: the
three own keys, then the keys inherited from `Object.prototype`, else
`undefined`. -/
def matchTypeConfigs (matchType : String) : JsLookup MatchTypeBadgeView :=
  if matchType = "exact" then
    .config ⟨"Tam Eşleşme", "bg-green-100", "text-green-700"⟩
  else if matchType = "paraphrase" then
    .config ⟨"Parafraz", "bg-blue-100", "text-blue-700"⟩
  else if matchType = "inference" then .config inferenceView
  else if matchType ∈ objectPrototypeKeys then .inherited matchType
  else .undefinedValue

/-- The span rendered by `MatchTypeBadge`: its text and class names, each
`none` when the corresponding `config` field is `undefined`. -/
structure MatchTypeRender where
  text : Option String
  bgColor : Option String
  textColor : Option String
deriving DecidableEq, Repr

/-- The span rendered from a proper config object. -/
def renderOf (c : MatchTypeBadgeView) : MatchTypeRender :=
  { text := some c.text, bgColor := some c.bgColor,
    textColor := some c.textColor }

/-- `MatchTypeBadge`: `const config = configs[matchType] ||
configs.inference; return <span …>{config.text}</span>`.  A falsy lookup
falls back to the `inference` config; an inherited `Object.prototype`
member is truthy, so no fallback fires and the span renders with
`undefined` text and class names. -/
def matchTypeBadge (matchType : String) : MatchTypeRender :=
  match matchTypeConfigs matchType with
  | .config c => renderOf c
  | .inherited _ => { text := none, bgColor := none, textColor := none }
  | .undefinedValue => renderOf inferenceView

/-- C10 counterexample: `"constructor"` is outside both enumerations, yet
neither renderer falls back — the lookup hits the member inherited from
`Object.prototype`, which is truthy: `VerificationBadge`'s render throws
on the `undefined` icon component (`none`, not the `unverified`
presentation), and `MatchTypeBadge` renders a span with `undefined` text
and classes, not the `inference` presentation. -/
theorem badge_prototype_key_counterexample :
    ("constructor" : String) ∉ ["verified", "partial", "unverified"] ∧
    verificationBadge "constructor" = none ∧
    verificationBadge "constructor" ≠ some unverifiedView ∧
    ("constructor" : String) ∉ ["exact", "paraphrase", "inference"] ∧
    matchTypeBadge "constructor" ≠ renderOf inferenceView := by
  refine ⟨?_, ?_, ?_, ?_, ?_⟩ <;> decide

/-- C10 (amended): the badge renderers fall back for unknown enumeration
values that are not `Object.prototype` property names: any
`verification_status` outside {verified, partial, unverified} and outside
the inherited prototype keys renders as the `unverified` presentation,
and any `match_type` outside {exact, paraphrase, inference} and outside
those keys renders as the `inference` presentation; for an inherited
prototype key the truthy lookup skips the fallback, `VerificationBadge`'s
render throws on the `undefined` icon, and `MatchTypeBadge` renders with
`undefined` text and classes instead of the `inference` presentation. -/
theorem badges_fallback_off_prototype_keys (s m : String)
    (hs : s ≠ "verified" ∧ s ≠ "partial" ∧ s ≠ "unverified")
    (hsp : s ∉ objectPrototypeKeys)
    (hm : m ≠ "exact" ∧ m ≠ "paraphrase" ∧ m ≠ "inference")
    (hmp : m ∉ objectPrototypeKeys) :
    verificationBadge s = verificationBadge "unverified" ∧
    matchTypeBadge m = matchTypeBadge "inference" ∧
    (∀ p ∈ objectPrototypeKeys, verificationBadge p = none ∧
      matchTypeBadge p = { text := none, bgColor := none, textColor := none }) := by
  obtain ⟨hs1, hs2, hs3⟩ := hs
  obtain ⟨hm1, hm2, hm3⟩ := hm
  refine ⟨?_, ?_, ?_⟩
  · simp [verificationBadge, verificationConfigs, hs1, hs2, hs3, hsp]
  · simp [matchTypeBadge, matchTypeConfigs, hm1, hm2, hm3, hmp]
  · decide

/-- Witness for the amended C10 at concrete unknown enumeration values
that are not prototype keys. -/
theorem badges_fallback_off_prototype_keys_witness :
    verificationBadge "hallucinated" = verificationBadge "unverified" ∧
    matchTypeBadge "telepathy" = matchTypeBadge "inference" := by
  have h := badges_fallback_off_prototype_keys "hallucinated" "telepathy"
    ⟨by decide, by decide, by decide⟩ (by decide)
    ⟨by decide, by decide, by decide⟩ (by decide)
  exact ⟨h.1, h.2.1⟩

end Querova
